import Mathlib

/-!
Shallow embedding of the candidate-lifecycle engine of GaroLabSniperBot:
`token_cache.py` (the lifecycle cache) and `filters.py` (the filter
pipeline with its oracle interactions), together with proofs settling the
spec claims about them.

Conventions of the embedding:
* `time.time()` values and config thresholds are modelled as `Int`
  (the code only compares and subtracts them).
* A Python `dict` (insertion-ordered, unique keys) is modelled as an
  association list `List (String × TokenState)`; lookup/update/erase act
  on the first matching key, which coincides with dict behaviour on the
  unique-key states the cache operations produce.
* Methods that Python ends without a `return` statement return `None`;
  where a claim is about the reported/returned value, that value is
  modelled explicitly as an `Option` component that the code always
  leaves at `none` (no exception is ever raised on the guarded paths).
-/

namespace GaroLab

/-- Embedding of `TokenState.__init__` in `token_cache.py`: per-candidate lifecycle
record. `first_seen = created_at or time.time()`; `last_checked = 0`;
`retry_count = 0`; `promoted = False`; `last_signal_strength = 0`. -/
structure TokenState where
  address : String
  first_seen : Int
  last_checked : Int
  retry_count : Nat
  promoted : Bool
  last_signal_strength : Int
deriving DecidableEq

/-- Fresh record as built by `TokenState(address)` at time `now`. -/
def TokenState.init (address : String) (now : Int) : TokenState :=
  { address := address
    first_seen := now
    last_checked := 0
    retry_count := 0
    promoted := false
    last_signal_strength := 0 }

/-- The `self.tokens` dict of `TokenCache`, as an association list. -/
abbrev Cache := List (String × TokenState)

/-- Dict lookup `self.tokens[address]` / membership `address in self.tokens`. -/
def lookupToken : Cache → String → Option TokenState
  | [], _ => none
  | (k, v) :: rest, a => if k = a then some v else lookupToken rest a

/-- Dict in-place update of the entry at key `a` by `f` (unique-key dicts:
only the first matching entry exists). -/
def mapToken : Cache → String → (TokenState → TokenState) → Cache
  | [], _, _ => []
  | (k, v) :: rest, a, f => if k = a then (k, f v) :: rest else (k, v) :: mapToken rest a f

/-- Dict deletion `del self.tokens[address]`. -/
def eraseToken : Cache → String → Cache
  | [], _ => []
  | (k, v) :: rest, a => if k = a then rest else (k, v) :: eraseToken rest a

/-- Embedding of `TokenCache.add_token`: insert a fresh `TokenState` only when the
address is not yet present (a Python dict insert appends at the end). -/
def add_token (c : Cache) (address : String) (now : Int) : Cache :=
  if (lookupToken c address).isSome then c
  else c ++ [(address, TokenState.init address now)]

/-- Embedding of `TokenCache.update_check`: when the address is present, set
`last_checked = now`, `retry_count += 1`, `last_signal_strength = signal`.
The second component is the value the method hands back to the caller:
Python falls off the end of the function in both branches, so it is
always `None` (`none`) and no exception is raised. -/
def update_check (c : Cache) (address : String) (now : Int) (signal : Int) :
    Cache × Option String :=
  if (lookupToken c address).isSome then
    (mapToken c address (fun t =>
      { t with last_checked := now
               retry_count := t.retry_count + 1
               last_signal_strength := signal }), none)
  else (c, none)

/-- Embedding of `TokenCache.promote_to_cache`: when the address is present, set
`promoted = True`. The second component is the returned value: the Python
method has no `return` statement, so every call returns `None` (`none`),
never a boolean. -/
def promote_to_cache (c : Cache) (address : String) : Cache × Option Bool :=
  if (lookupToken c address).isSome then
    (mapToken c address (fun t => { t with promoted := true }), none)
  else (c, none)

/-- Embedding of `TokenCache.get_due_for_check`: tokens with
`now - last_checked >= interval` and `now - first_seen < max_age * 60`,
in dict-value order. A pure read of `self.tokens.values()`. -/
def get_due_for_check (c : Cache) (now max_age interval : Int) : List TokenState :=
  (c.map Prod.snd).filter (fun t =>
    decide (now - t.last_checked ≥ interval) && decide (now - t.first_seen < max_age * 60))

/-- Embedding of `TokenCache.get_ready_for_purge`: keys of tokens with
`now - first_seen > max_lifetime` (strictly) and `last_signal_strength < 1`. -/
def get_ready_for_purge (c : Cache) (now max_lifetime : Int) : List String :=
  (c.filter (fun p =>
    decide (now - p.2.first_seen > max_lifetime) && decide (p.2.last_signal_strength < 1))).map
    Prod.fst

/-- Embedding of `TokenCache.remove_token`: delete the entry when the address is
present. As with the other mutators, the returned value is always `None`
(`none`): a missing address is silently ignored. -/
def remove_token (c : Cache) (address : String) : Cache × Option String :=
  if (lookupToken c address).isSome then (eraseToken c address, none) else (c, none)

/-- A sequence of `add_token` calls, oldest first, starting from the
empty cache. Used to state the insertion-uniqueness invariant. -/
def run_adds (ops : List (String × Int)) : Cache :=
  ops.foldl (fun c p => add_token c p.1 p.2) []

/-- Purge-eligibility deadline of a record for lifetime `L`: the code
purges on `now - first_seen > L`, i.e. past `first_seen + L`. This is the
`expires_at` of the spec's data model; the code stores no such field and
never moves `first_seen`. -/
def expiresAt (t : TokenState) (max_lifetime : Int) : Int :=
  t.first_seen + max_lifetime

/-! ## `filters.py` — the filter pipeline and its oracle interactions

The oracle world (HTTP rugcheck endpoint, Solana RPC) is modelled as
explicit response data handed to the otherwise pure pipeline functions.
Every branch of the Python code — `hasattr` checks, caught exceptions,
truthiness tests — is represented by a constructor of the response types.
-/

/-- The keys of the loaded `config` dict that `filters.py` reads. -/
structure Config where
  SIMULATION_MODE_RELAXED_FILTERS : Bool
  MIN_LIQUIDITY_USD : Int
  MAX_FDV_USD : Int
  RUGCHECK_MIN_SCORE : Int
  TOP_HOLDER_MAX_PERCENT : Int

/-- The fields of the incoming token dict that `apply_filters` reads.
`mint`/`address` are `dict.get` results (absent key ⇒ `none`); the
numeric fields are read unconditionally by the stage filters. -/
structure Token where
  mint : Option String
  address : Option String
  liquidity_usd : Int
  fdv : Int

/-- Python string truthiness fallback `a or b` for an optional string:
`None` and `""` fall through to `b`. -/
def orElseStr (a : Option String) (b : String) : String :=
  match a with
  | some s => if s = "" then b else s
  | none => b

/-- Python `str.strip()`: drop leading and trailing whitespace.
(Defined over the character list so that it evaluates by kernel
reduction; `String.trim` is extensionally the same operation.) -/
def pyStrip (s : String) : String :=
  ⟨((s.data.dropWhile Char.isWhitespace).reverse.dropWhile Char.isWhitespace).reverse⟩

/-- Python `str.lower()`, over the character list. -/
def pyLower (s : String) : String :=
  ⟨s.data.map Char.toLower⟩

/-- Computes `(token.get("mint") or token.get("address") or "").strip()`. -/
def tokenAddress (t : Token) : String :=
  pyStrip (orElseStr t.mint (orElseStr t.address ""))

/-- Body of a successful rugcheck report response (`resp.json()`), with
the fields `rugcheck_score` reads. `knownAccounts` is only tested for
truthiness, so it is kept as a `Bool`. -/
structure RugData where
  rugged : Bool
  result : String
  mintAuthority : Option String
  freezeAuthority : Option String
  knownAccounts : Bool
deriving DecidableEq

/-- Outcome of the rugcheck HTTP interaction: a 404 (`notFound`), any
raised/failed fetch (`fetchError`), or a parsed JSON body. -/
inductive RugResp
  | notFound
  | fetchError
  | ok (d : RugData)
deriving DecidableEq

/-- Python `x not in (None, "", "null")` is false exactly on these. -/
def nullish (o : Option String) : Bool :=
  match o with
  | none => true
  | some s => s = "" || s = "null"

/-- Embedding of `rugcheck_score` in `filters.py`: 0 on 404 or fetch failure or a
`rugged` report; otherwise 100 minus the penalties, floored at 0. -/
def rugcheck_score (r : RugResp) : Int :=
  match r with
  | .notFound => 0
  | .fetchError => 0
  | .ok d =>
    if d.rugged then 0
    else
      let s0 : Int := 100
      let res := pyLower d.result
      let s1 := if res = "blacklisted" || res = "danger" then s0 - 50
                else if res = "warning" then s0 - 20 else s0
      let s2 := if !nullish d.mintAuthority then s1 - 25 else s1
      let s3 := if !nullish d.freezeAuthority then s2 - 25 else s2
      let s4 := if d.knownAccounts then s3 - 30 else s3
      max s4 0

/-- One entry of the largest-accounts response. `amount = none` models a
`holder.amount.amount` on which `int(...)` raises (unparsable). -/
structure Holder where
  amount : Option Int
deriving DecidableEq

/-- Outcome of one RPC call: the call raised (`exc`), returned a response
without a `value` attribute (`noValue`), or returned a value. -/
inductive Resp (α : Type)
  | exc
  | noValue
  | ok (v : α)
deriving DecidableEq

/-- The oracle data one iteration of the retry loop can observe: the
supply call, then the largest-accounts call. For the supply value,
`ok none` models an `amount` string on which `int(...)` raises. -/
structure Attempt where
  supply : Resp (Option Int)
  holders : Resp (List Holder)
deriving DecidableEq

/-- How one retry-loop iteration ends: a caught exception that moves on
to the next attempt after `time.sleep(1)`, or a decisive `return`. -/
inductive AttemptResult
  | retry
  | decided (b : Bool)
deriving DecidableEq

/-- Tests `holder_amount * 100 / total_amount >= TOP_HOLDER_MAX_PERCENT`,
cross-multiplied (the code has already ruled out `total = 0`; on the
parse-failure entry the loop logs and skips, deciding nothing). -/
def bigHolder (maxPct total : Int) (h : Holder) : Bool :=
  match h.amount with
  | none => false
  | some amt => decide (amt * 100 ≥ maxPct * total)

/-- One iteration of the `for attempt in range(3)` body of
`holders_distribution_filter`, given the oracle data of that attempt. -/
def runAttempt (maxPct : Int) (a : Attempt) : AttemptResult :=
  match a.supply with
  | .exc => .retry
  | .noValue => .decided false
  | .ok none => .retry
  | .ok (some total) =>
    if total = 0 then .decided false
    else
      match a.holders with
      | .exc => .retry
      | .noValue => .decided false
      | .ok hs =>
        if (hs.take 10).any (bigHolder maxPct total) then .decided false
        else .decided true

/-- Observable trace of the retry loop: the boolean result, the number of
loop iterations entered (each starts with a supply call), and the
`time.sleep` durations performed, in order. -/
structure HolderTrace where
  result : Bool
  calls : Nat
  sleeps : List Nat
deriving DecidableEq

/-- The retry loop with `fuel` iterations left, reading attempt `i` from
the oracle. A decisive iteration returns at once; a caught exception
sleeps 1 second and retries; an exhausted loop falls through to the
function's final `return False`. -/
def holdersLoop (maxPct : Int) (att : Nat → Attempt) : Nat → Nat → HolderTrace
  | 0, _ => { result := false, calls := 0, sleeps := [] }
  | fuel + 1, i =>
    match runAttempt maxPct (att i) with
    | .decided b => { result := b, calls := 1, sleeps := [] }
    | .retry =>
      let rest := holdersLoop maxPct att fuel (i + 1)
      { result := rest.result, calls := rest.calls + 1, sleeps := 1 :: rest.sleeps }

/-- Embedding of `holders_distribution_filter` in `filters.py`. `pubkeyOk = false`
models `Pubkey.from_string` raising (caught by the outer handler, which
falls through to `return False`). The address-length guard rejects
anything that is not exactly 44 characters before any RPC call. -/
def holders_distribution_filter (maxPct : Int) (token_address : String)
    (pubkeyOk : Bool) (att : Nat → Attempt) : HolderTrace :=
  if token_address.length ≠ 44 then { result := false, calls := 0, sleeps := [] }
  else if !pubkeyOk then { result := false, calls := 0, sleeps := [] }
  else holdersLoop maxPct att 3 0

/-- Embedding of `TokenFilter.basic_filter`: liquidity floor. -/
def basic_filter (cfg : Config) (t : Token) : Bool :=
  if t.liquidity_usd < cfg.MIN_LIQUIDITY_USD then false else true

/-- Embedding of `TokenFilter.fdv_filter`: valuation range `(0, MAX_FDV_USD]`. -/
def fdv_filter (cfg : Config) (t : Token) : Bool :=
  if t.fdv ≤ 0 || t.fdv > cfg.MAX_FDV_USD then false else true

/-- The `self.filter_stats` counters of `TokenFilter`. -/
structure FilterStats where
  liquidity : Nat
  fdv : Nat
  rugcheck : Nat
  holders : Nat
deriving DecidableEq

/-- The external world one `apply_filters` call can observe: the rugcheck
response, whether `Pubkey.from_string` succeeds, and the RPC data of each
retry attempt. -/
structure Oracle where
  rug : RugResp
  pubkeyOk : Bool
  attempts : Nat → Attempt

/-- Everything observable about one `apply_filters` call: the returned
verdict, the updated stats, and which oracle interactions happened
(`rugcheckCalled`; `holdersCalls` counts supply-call iterations). -/
structure FilterRun where
  result : Bool
  stats : FilterStats
  rugcheckCalled : Bool
  holdersCalls : Nat

/-- Embedding of `TokenFilter.apply_filters`, line by line. Address shorter than 32
characters (including the empty fallback): return the relaxed-mode flag
without touching any oracle. Otherwise every stage runs — there is no
short-circuit — and a failed holder check is forgiven whenever the
rugcheck score meets the threshold. A final relaxed-mode override turns
any failure into a pass. -/
def apply_filters (cfg : Config) (o : Oracle) (t : Token) (s : FilterStats) : FilterRun :=
  let addr := tokenAddress t
  if addr.length < 32 then
    { result := cfg.SIMULATION_MODE_RELAXED_FILTERS, stats := s
      rugcheckCalled := false, holdersCalls := 0 }
  else
    let p1 := basic_filter cfg t
    let s1 := if !p1 then { s with liquidity := s.liquidity + 1 } else s
    let passed1 := p1
    let p2 := fdv_filter cfg t
    let s2 := if !p2 then { s1 with fdv := s1.fdv + 1 } else s1
    let passed2 := if !p2 then false else passed1
    let score := rugcheck_score o.rug
    let rugLow := decide (score < cfg.RUGCHECK_MIN_SCORE)
    let s3 := if rugLow then { s2 with rugcheck := s2.rugcheck + 1 } else s2
    let passed3 := if rugLow then false else passed2
    let ht := holders_distribution_filter cfg.TOP_HOLDER_MAX_PERCENT addr o.pubkeyOk o.attempts
    let s4 := if !ht.result then { s3 with holders := s3.holders + 1 } else s3
    let passed4 := if !ht.result then (if !rugLow then passed3 else false) else passed3
    let final := if !passed4 && cfg.SIMULATION_MODE_RELAXED_FILTERS then true else passed4
    { result := final, stats := s4, rugcheckCalled := true, holdersCalls := ht.calls }

/-- An attempt whose oracle data is failing or ambiguous at the
call/response level: the supply call raised, the response lacks `value`,
the supply amount is unparsable, the supply is zero, or the
largest-accounts call raised or lacks `value`. (A clean largest-accounts
response with unparsable entries is *not* in this class: the code skips
such entries.) -/
def attemptFailing (a : Attempt) : Bool :=
  match a.supply with
  | .exc => true
  | .noValue => true
  | .ok none => true
  | .ok (some total) =>
    if total = 0 then true
    else
      match a.holders with
      | .exc => true
      | .noValue => true
      | .ok _ => false

/-! ## Concrete instances used by counterexamples and witnesses -/

/-- A 44-character address (valid length for the holder filter). -/
def addr44 : String := "AAAAAAAAAAAAAAAAAAAAAAAAAAAAAAAAAAAAAAAAAAAA"

/-- A configuration with relaxed simulation mode off: liquidity floor
$20,000, FDV cap $1,000,000, rugcheck minimum 60, holder ceiling 20%. -/
def cfg0 : Config :=
  { SIMULATION_MODE_RELAXED_FILTERS := false
    MIN_LIQUIDITY_USD := 20000
    MAX_FDV_USD := 1000000
    RUGCHECK_MIN_SCORE := 60
    TOP_HOLDER_MAX_PERCENT := 20 }

/-- The configuration `cfg0` with relaxed simulation mode on. -/
def cfgRelax : Config := { cfg0 with SIMULATION_MODE_RELAXED_FILTERS := true }

/-- A fully clean rugcheck report (score 100). -/
def cleanRug : RugResp :=
  .ok { rugged := false, result := "safe", mintAuthority := none
        freezeAuthority := none, knownAccounts := false }

/-- A token with healthy liquidity and valuation at `addr44`. -/
def tok0 : Token :=
  { mint := some addr44, address := none, liquidity_usd := 50000, fdv := 300000 }

/-- The token `tok0` with liquidity $5,000, below the $20,000 floor of `cfg0`. -/
def tokLowLiq : Token := { tok0 with liquidity_usd := 5000 }

/-- Zeroed filter statistics, as built by `TokenFilter.__init__`. -/
def s0 : FilterStats := { liquidity := 0, fdv := 0, rugcheck := 0, holders := 0 }

/-- Oracle whose holder data is clean except that the single largest
holder's amount is unparsable (`int(...)` raises on it). -/
def oracleC1 : Oracle :=
  { rug := cleanRug, pubkeyOk := true
    attempts := fun _ => { supply := .ok (some 1000000), holders := .ok [{ amount := none }] } }

/-- Oracle stub whose every attempt raises on the supply call
(the always-`RateLimited` stub of the retry-bound property). -/
def allRaise : Nat → Attempt := fun _ => { supply := .exc, holders := .exc }

/-- A record tracked from time 0, never checked, no positive signal. -/
def tokA : TokenState := TokenState.init "A" 0

/-- A cache holding exactly `tokA` under address `"A"`. -/
def cacheA : Cache := [("A", tokA)]

/-- A promoted record, seen at 19000 and checked at 19900. -/
def tokB : TokenState :=
  { TokenState.init "B" 19000 with promoted := true, last_checked := 19900 }

/-- Cache with an old unpromoted record and a fresh promoted one. -/
def cacheC8 : Cache := [("A", tokA), ("B", tokB)]

/-! ## Helper lemmas about the association-list cache -/

theorem lookupToken_mapToken_self (c : Cache) (a : String) (f : TokenState → TokenState) :
    lookupToken (mapToken c a f) a = (lookupToken c a).map f := by
  induction c with
  | nil => rfl
  | cons p rest ih =>
    obtain ⟨k, v⟩ := p
    by_cases hk : k = a
    · simp [mapToken, lookupToken, hk]
    · simp [mapToken, lookupToken, hk, ih]

theorem lookupToken_mapToken_ne (c : Cache) (a b : String) (f : TokenState → TokenState)
    (h : b ≠ a) : lookupToken (mapToken c a f) b = lookupToken c b := by
  induction c with
  | nil => rfl
  | cons p rest ih =>
    obtain ⟨k, v⟩ := p
    by_cases hk : k = a
    · subst hk
      simp [mapToken, lookupToken, Ne.symm h]
    · by_cases hb : k = b
      · simp [mapToken, lookupToken, hk, hb, h]
      · simp [mapToken, lookupToken, hk, hb, ih]

theorem mapToken_mapToken (c : Cache) (a : String) (f g : TokenState → TokenState) :
    mapToken (mapToken c a f) a g = mapToken c a (fun t => g (f t)) := by
  induction c with
  | nil => rfl
  | cons p rest ih =>
    obtain ⟨k, v⟩ := p
    by_cases hk : k = a
    · simp [mapToken, hk]
    · simp [mapToken, hk, ih]

theorem lookupToken_eq_none_iff (c : Cache) (a : String) :
    lookupToken c a = none ↔ a ∉ c.map Prod.fst := by
  induction c with
  | nil => simp [lookupToken]
  | cons p rest ih =>
    obtain ⟨k, v⟩ := p
    by_cases hk : k = a
    · simp [lookupToken, hk]
    · simp [lookupToken, hk, ih, Ne.symm hk]

/-! ## Claim C5 — insertion uniqueness and idempotence -/

/-- C5: for every sequence of `add_token` calls starting from the empty
cache, the addresses in the cache are pairwise distinct; and an
`add_token` on an already-present address is a complete no-op, leaving
every field of every record (first_seen, promotion status, retry_count,
last_checked, last_signal_strength) untouched. -/
theorem C5_insert_unique_idempotent :
    (∀ ops : List (String × Int), ((run_adds ops).map Prod.fst).Nodup) ∧
    (∀ (c : Cache) (a : String) (now : Int),
      (lookupToken c a).isSome = true → add_token c a now = c) := by
  constructor
  · have key : ∀ (ops : List (String × Int)) (c : Cache),
        (c.map Prod.fst).Nodup →
        ((ops.foldl (fun c p => add_token c p.1 p.2) c).map Prod.fst).Nodup := by
      intro ops
      induction ops with
      | nil => intro c h; exact h
      | cons p rest ih =>
        intro c h
        apply ih
        unfold add_token
        by_cases hs : (lookupToken c p.1).isSome = true
        · simp [hs, h]
        · have hnone : lookupToken c p.1 = none := by
            cases hl : lookupToken c p.1 <;> simp_all
          have hnotin : p.1 ∉ c.map Prod.fst := (lookupToken_eq_none_iff c p.1).1 hnone
          simp [hs, List.nodup_append, h, hnotin]
    intro ops
    exact key ops [] (by simp)
  · intro c a now h
    unfold add_token
    simp [h]

/-- Witness for C5 at a concrete input: re-adding the already-tracked
address `"A"` leaves the cache literally unchanged. -/
theorem C5_insert_unique_idempotent_witness :
    add_token cacheA "A" 5 = cacheA :=
  C5_insert_unique_idempotent.2 cacheA "A" 5 (by decide)

/-! ## Claim C9 — mutations on a missing address -/

/-- Counterexample to C9 as stated: operating on the absent address
`"B"` leaves the cache unchanged (that half of the claim holds) but the
value handed back to the caller is `none` — Python's `None`, identical to
the present-address case — so no inconsistency is ever reported. -/
theorem C9_counterexample :
    lookupToken cacheA "B" = none ∧
    update_check cacheA "B" 5 1 = (cacheA, none) ∧
    promote_to_cache cacheA "B" = (cacheA, none) ∧
    remove_token cacheA "B" = (cacheA, none) := by decide

/-- C9 amended: a cache mutation on an address not present is a silent
no-op — the cache is unchanged and the caller receives `None`, never an
error report. -/
theorem C9_missing_address_silent_noop :
    ∀ (c : Cache) (a : String) (now sig : Int),
      lookupToken c a = none →
      update_check c a now sig = (c, none) ∧
      promote_to_cache c a = (c, none) ∧
      remove_token c a = (c, none) := by
  intro c a now sig h
  unfold update_check promote_to_cache remove_token
  simp [h]

/-- Witness for C9 at a concrete input. -/
theorem C9_missing_address_silent_noop_witness :
    update_check cacheA "B" 9 0 = (cacheA, none) ∧
    promote_to_cache cacheA "B" = (cacheA, none) ∧
    remove_token cacheA "B" = (cacheA, none) :=
  C9_missing_address_silent_noop cacheA "B" 9 0 (by decide)

/-! ## Claim C2 — promotion is not a one-shot boolean transition -/

/-- Counterexample to C2 as stated: `"A"` is tracked, yet the first
`promote_to_cache` call does not return `true` — the method returns
Python `None` on every call, so its return value can never distinguish
the first promotion from later ones. -/
theorem C2_counterexample :
    (lookupToken cacheA "A").isSome = true ∧
    (promote_to_cache cacheA "A").2 ≠ some true := by decide

/-- C2 amended: promotion is idempotent rather than one-shot — every
call returns `None` (never a boolean), and a second call on the same
address leaves the cache exactly as the first left it, so the cache
itself provides no guard against double notification. -/
theorem C2_promote_idempotent_unreported :
    ∀ (c : Cache) (a : String),
      (promote_to_cache c a).2 = none ∧
      promote_to_cache (promote_to_cache c a).1 a =
        ((promote_to_cache c a).1, none) := by
  intro c a
  by_cases hs : (lookupToken c a).isSome = true
  · have h1 : promote_to_cache c a =
        (mapToken c a (fun t => { t with promoted := true }), none) := by
      unfold promote_to_cache
      simp [hs]
    have h2 : (lookupToken (mapToken c a (fun t => { t with promoted := true })) a).isSome
        = true := by
      rw [lookupToken_mapToken_self]
      cases hl : lookupToken c a <;> simp_all
    constructor
    · rw [h1]
    · rw [h1]
      unfold promote_to_cache
      simp [h2, mapToken_mapToken]
  · have hnone : promote_to_cache c a = (c, none) := by
      unfold promote_to_cache
      simp [hs]
    constructor
    · rw [hnone]
    · rw [hnone]
      exact hnone

/-! ## Claim C3 — purge characterization -/

/-- Counterexample to C3 as stated: at `now = 10800` the record `tokA`
(first seen at 0, lifetime 10800, no positive signal) satisfies the
claim's purge condition `now ≥ expires_at ∧ last_signal_strength < 1`,
yet the code's purge set is empty — the code requires the strictly later
`now - first_seen > max_lifetime`. -/
theorem C3_counterexample :
    ((10800 : Int) ≥ expiresAt tokA 10800 ∧ tokA.last_signal_strength < 1) ∧
    get_ready_for_purge cacheA 10800 10800 = [] := by decide

/-- C3 amended: an address is in the purge set iff it holds a record with
`now - first_seen > max_lifetime` (strictly past `expires_at =
first_seen + max_lifetime`) and `last_signal_strength < 1`; in
particular a record whose last evaluation recorded a positive signal
(`last_signal_strength ≥ 1`) is never in the purge set. -/
theorem C3_purge_characterization :
    ∀ (c : Cache) (now L : Int) (a : String),
      a ∈ get_ready_for_purge c now L ↔
        ∃ t : TokenState, (a, t) ∈ c ∧ now - t.first_seen > L ∧
          t.last_signal_strength < 1 := by
  intro c now L a
  unfold get_ready_for_purge
  constructor
  · intro h
    obtain ⟨p, hp, hfst⟩ := List.mem_map.1 h
    obtain ⟨hmem, hcond⟩ := List.mem_filter.1 hp
    obtain ⟨k, t⟩ := p
    subst hfst
    simp only [Bool.and_eq_true, decide_eq_true_eq] at hcond
    exact ⟨t, hmem, hcond.1, hcond.2⟩
  · rintro ⟨t, hmem, h1, h2⟩
    apply List.mem_map.2
    refine ⟨(a, t), List.mem_filter.2 ⟨hmem, ?_⟩, rfl⟩
    simp [h1, h2]

/-! ## Claim C8 — the due-for-recheck query -/

/-- Counterexample to C8 as stated: at `now = 20000`, `tokA` (unpromoted,
never checked) satisfies `now - last_checked ≥ interval` but is *not*
returned — the code also requires `now - first_seen < max_age * 60` —
while the promoted (terminal, in the spec's reading) record `tokB` *is*
returned. The result is exactly `[tokB]`, not the claim's set. -/
theorem C8_counterexample :
    ((20000 : Int) - tokA.last_checked ≥ 60) ∧
    get_due_for_check cacheC8 20000 180 60 = [tokB] := by decide

/-- C8 amended: the query returns exactly the records (promoted or not)
with `now - last_checked ≥ interval` *and* `now - first_seen <
max_age * 60`; it is a pure read — it returns a list of records and
leaves the cache value untouched. -/
theorem C8_due_for_recheck_characterization :
    ∀ (c : Cache) (now max_age interval : Int) (t : TokenState),
      t ∈ get_due_for_check c now max_age interval ↔
        (∃ a, (a, t) ∈ c) ∧ now - t.last_checked ≥ interval ∧
          now - t.first_seen < max_age * 60 := by
  intro c now max_age interval t
  unfold get_due_for_check
  constructor
  · intro h
    obtain ⟨hmem, hcond⟩ := List.mem_filter.1 h
    obtain ⟨p, hp, hsnd⟩ := List.mem_map.1 hmem
    obtain ⟨k, v⟩ := p
    simp only at hsnd
    subst hsnd
    simp only [Bool.and_eq_true, decide_eq_true_eq] at hcond
    exact ⟨⟨k, hp⟩, hcond.1, hcond.2⟩
  · rintro ⟨⟨a, hmem⟩, h1, h2⟩
    apply List.mem_filter.2
    refine ⟨List.mem_map.2 ⟨(a, t), hmem, rfl⟩, ?_⟩
    simp [h1, h2]

/-! ## Claim C6 — effect of recording an evaluation outcome -/

/-- Counterexample to C6 as stated: recording a passing outcome
(`signal = 1`) at `now = 100` for `tokA` leaves its purge deadline at
`expiresAt tokA 10800 = 10800`, exactly what it was before — it is not
moved to `now + extend_by` (with the claim's `extend_by = 50`, that
would be `150`). -/
theorem C6_counterexample :
    (lookupToken (update_check cacheA "A" 100 1).1 "A").map
        (fun t => expiresAt t 10800) = some (expiresAt tokA 10800) ∧
    expiresAt tokA 10800 ≠ 100 + 50 := by decide

/-- C6 amended: recording an outcome for a tracked address always
increments `retry_count` by one, sets `last_checked = now`, and sets
`last_signal_strength` to the given signal (the caller passes 1 on pass,
0 on fail); every other field — in particular `first_seen`, hence the
purge deadline, and `promoted` — is unchanged, other records are
untouched, and the expiry is never extended on a pass. -/
theorem C6_update_check_effect :
    ∀ (c : Cache) (a : String) (now sig : Int) (t : TokenState),
      lookupToken c a = some t →
      (update_check c a now sig).2 = none ∧
      lookupToken (update_check c a now sig).1 a =
        some { t with last_checked := now
                      retry_count := t.retry_count + 1
                      last_signal_strength := sig } ∧
      (∀ b, b ≠ a → lookupToken (update_check c a now sig).1 b = lookupToken c b) := by
  intro c a now sig t h
  have hs : (lookupToken c a).isSome = true := by simp [h]
  have h1 : update_check c a now sig =
      (mapToken c a (fun u => { u with last_checked := now
                                       retry_count := u.retry_count + 1
                                       last_signal_strength := sig }), none) := by
    unfold update_check
    simp [hs]
  rw [h1]
  refine ⟨rfl, ?_, ?_⟩
  · rw [lookupToken_mapToken_self, h]
    rfl
  · intro b hb
    exact lookupToken_mapToken_ne c a b _ hb

/-- Witness for C6 at a concrete input: updating `"A"` in `cacheA` at
`now = 7` with signal 1. -/
theorem C6_update_check_effect_witness :
    (update_check cacheA "A" 7 1).2 = none ∧
    lookupToken (update_check cacheA "A" 7 1).1 "A" =
      some { tokA with last_checked := 7
                       retry_count := tokA.retry_count + 1
                       last_signal_strength := 1 } :=
  ⟨(C6_update_check_effect cacheA "A" 7 1 tokA (by decide)).1,
   (C6_update_check_effect cacheA "A" 7 1 tokA (by decide)).2.1⟩

/-! ## Claim C1 — fail-closed on oracle failure -/

/-- A failing/ambiguous attempt never decides `true`: it either retries
or decides `false`. -/
theorem runAttempt_of_failing (maxPct : Int) (a : Attempt)
    (h : attemptFailing a = true) :
    runAttempt maxPct a = .retry ∨ runAttempt maxPct a = .decided false := by
  unfold attemptFailing at h
  unfold runAttempt
  rcases hsup : a.supply with _ | _ | v
  · left; rfl
  · right; rfl
  · rcases v with _ | total
    · left; rfl
    · rw [hsup] at h
      by_cases ht : total = 0
      · right
        simp [ht]
      · rcases hh : a.holders with _ | _ | hs
        · left; simp [ht]
        · right; simp [ht]
        · rw [hh] at h
          simp [ht] at h

/-- Counterexample to C1 as stated: the holder oracle returns a
malformed field — the single largest holder's amount is unparsable — and
every other input is clean, yet the overall pipeline verdict is *pass*:
the code logs and skips the unparsable entry instead of rejecting. -/
theorem C1_counterexample :
    (oracleC1.attempts 0).holders = Resp.ok [{ amount := none }] ∧
    (apply_filters cfg0 oracleC1 tok0 s0).result = true := by
  exact ⟨rfl, by decide⟩

/-- C1 amended: when every retry-loop attempt fails or is ambiguous at
the call/response level — the supply call raised, the response had no
value field, the supply amount was unparsable, the total supply was
zero, or the largest-accounts call raised or had no value field
(covering not-found, malformed responses, and an exhausted retry
budget) — the holder-distribution *stage* returns `false` (fail-closed).
The guarantee stops at that stage: an unparsable individual holder
amount is skipped rather than rejected, and a failed holder stage does
not force the overall verdict to reject when the rugcheck score meets
the threshold. -/
theorem C1_holder_stage_fail_closed :
    ∀ (maxPct : Int) (addr : String) (pk : Bool) (att : Nat → Attempt),
      attemptFailing (att 0) = true →
      attemptFailing (att 1) = true →
      attemptFailing (att 2) = true →
      (holders_distribution_filter maxPct addr pk att).result = false := by
  intro maxPct addr pk att h0 h1 h2
  unfold holders_distribution_filter
  by_cases hlen : addr.length ≠ 44
  · simp [hlen]
  · rw [if_neg hlen]
    cases pk with
    | false => simp
    | true =>
      simp only [Bool.not_true, Bool.false_eq_true, if_false]
      show (holdersLoop maxPct att 3 0).result = false
      rcases runAttempt_of_failing maxPct (att 0) h0 with r0 | r0 <;>
        rcases runAttempt_of_failing maxPct (att 1) h1 with r1 | r1 <;>
          rcases runAttempt_of_failing maxPct (att 2) h2 with r2 | r2 <;>
            simp [holdersLoop, r0, r1, r2]

/-- Witness for C1 (amended) at a concrete input: every attempt raises. -/
theorem C1_holder_stage_fail_closed_witness :
    (holders_distribution_filter 20 addr44 true allRaise).result = false :=
  C1_holder_stage_fail_closed 20 addr44 true allRaise (by decide) (by decide) (by decide)

/-! ## Claim C7 — the retry loop bound and its delays -/

/-- Counterexample to C7 as stated: with an oracle that raises on every
attempt, the loop performs its attempts with *equal* one-second delays —
the delay after the second failure equals the delay after the first, so
the inter-call delay does not double (no exponential backoff). -/
theorem C7_counterexample :
    (holders_distribution_filter 20 addr44 true allRaise).sleeps = [1, 1, 1] ∧
    (holders_distribution_filter 20 addr44 true allRaise).sleeps.get? 1 =
      (holders_distribution_filter 20 addr44 true allRaise).sleeps.get? 0 := by decide

/-- C7 amended: with a valid 44-character address and an oracle that
raises a retriable error on every attempt, the loop performs exactly 3
attempts (the hard-coded budget) and no more, sleeping a constant 1
second after each — a non-decreasing but *not* doubling delay — and the
stage returns reject (`false`), never pass. -/
theorem C7_retry_bound :
    ∀ (maxPct : Int) (addr : String) (att : Nat → Attempt),
      addr.length = 44 →
      (∀ i, (att i).supply = Resp.exc) →
      holders_distribution_filter maxPct addr true att =
        { result := false, calls := 3, sleeps := [1, 1, 1] } := by
  intro maxPct addr att hlen h
  unfold holders_distribution_filter
  rw [if_neg (by simp [hlen])]
  simp only [Bool.not_true, Bool.false_eq_true, if_false]
  have hr : ∀ i, runAttempt maxPct (att i) = .retry := by
    intro i
    unfold runAttempt
    rw [h i]
  show holdersLoop maxPct att 3 0 = { result := false, calls := 3, sleeps := [1, 1, 1] }
  simp [holdersLoop, hr]

/-- Witness for C7 (amended) at a concrete input. -/
theorem C7_retry_bound_witness :
    holders_distribution_filter 20 addr44 true allRaise =
      { result := false, calls := 3, sleeps := [1, 1, 1] } :=
  C7_retry_bound 20 addr44 allRaise (by decide) (fun _ => rfl)

/-! ## Claim C4 — stage order and (absence of) short-circuiting -/

/-- Counterexample to C4 as stated: a candidate with liquidity $5,000
against `cfg0`'s $20,000 floor does get verdict fail, but both oracle
interactions still happen — the rugcheck call is made and the holder
filter performs a supply-call attempt. There is no short-circuit. -/
theorem C4_counterexample :
    tokLowLiq.liquidity_usd = 5000 ∧ cfg0.MIN_LIQUIDITY_USD = 20000 ∧
    (apply_filters cfg0 oracleC1 tokLowLiq s0).result = false ∧
    (apply_filters cfg0 oracleC1 tokLowLiq s0).rugcheckCalled = true ∧
    (apply_filters cfg0 oracleC1 tokLowLiq s0).holdersCalls = 1 := by decide

/-- C4 amended: the pipeline evaluates its stages in the fixed order
liquidity, valuation (FDV), safety oracle, holder distribution, but does
*not* stop at the first failure: for any candidate with a well-formed
address whose liquidity is below the floor, the verdict is fail (with
relaxed mode off) while the safety-oracle call is still made. -/
theorem C4_low_liquidity_fails_but_oracle_called :
    ∀ (cfg : Config) (o : Oracle) (t : Token) (s : FilterStats),
      cfg.SIMULATION_MODE_RELAXED_FILTERS = false →
      32 ≤ (tokenAddress t).length →
      t.liquidity_usd < cfg.MIN_LIQUIDITY_USD →
      (apply_filters cfg o t s).result = false ∧
      (apply_filters cfg o t s).rugcheckCalled = true := by
  intro cfg o t s hrelax hlen hliq
  have hnot : ¬ (tokenAddress t).length < 32 := Nat.not_lt.mpr hlen
  unfold apply_filters
  simp [hnot, hrelax, basic_filter, hliq]

/-- Witness for C4 (amended) at the concrete $5,000-vs-$20,000 input. -/
theorem C4_low_liquidity_fails_but_oracle_called_witness :
    (apply_filters cfg0 oracleC1 tokLowLiq s0).result = false ∧
    (apply_filters cfg0 oracleC1 tokLowLiq s0).rugcheckCalled = true :=
  C4_low_liquidity_fails_but_oracle_called cfg0 oracleC1 tokLowLiq s0 rfl
    (by decide) (by decide)

/-! ## Claim C10 — relaxed simulation mode voids all filtering -/

/-- C10: whenever `SIMULATION_MODE_RELAXED_FILTERS` is true,
`apply_filters` returns `True` for every token and every oracle
behaviour — including when stages failed (the final override) and when
the address is missing or shorter than 32 characters (the early return
hands back the flag itself). -/
theorem C10_relaxed_always_passes :
    ∀ (cfg : Config) (o : Oracle) (t : Token) (s : FilterStats),
      cfg.SIMULATION_MODE_RELAXED_FILTERS = true →
      (apply_filters cfg o t s).result = true := by
  intro cfg o t s h
  unfold apply_filters
  by_cases hlen : (tokenAddress t).length < 32
  · simp [hlen, h]
  · simp only [hlen, if_false, h]
    cases hp : (if !(fdv_filter cfg t) then false else basic_filter cfg t) <;> simp [hp]
    exact lt_or_ge _ _

/-- Witness for C10 at a concrete input: a low-liquidity token under the
relaxed configuration still passes. -/
theorem C10_relaxed_always_passes_witness :
    (apply_filters cfgRelax oracleC1 tokLowLiq s0).result = true :=
  C10_relaxed_always_passes cfgRelax oracleC1 tokLowLiq s0 rfl

end GaroLab
